import Mathlib

/-!
# C2 barrier-set backend interface (`gc/shared/c2/barrierSetC2.hpp`)

A shallow embedding of the inline code of `barrierSetC2.hpp`:

* the eleven `C2_*` decorator constants,
* the access contexts `C2Access`, `C2ParseAccess`, `C2AtomicParseAccess`, `C2OptAccess`,
* the liveness cache `BarrierSetC2State::live`,
* the default bodies of the virtual hooks of `BarrierSetC2`,
* the preserve set of `BarrierStubC2`.

Pointers are `Option` values (`none` is `nullptr`), machine integers are `Nat` reduced modulo
their width, `assert` is an `Except` error, and a method that mutates an object returns the new
object.
-/

namespace BarrierSetC2Model

/-! ## Machine words and pointers -/

/-- Width of `DecoratorSet`, a `uint64_t` by its typedef in `oops/accessDecorators.hpp`. -/
def decoratorBits : Nat := 64

/-- The type `DecoratorSet`: a 64-bit unsigned word, kept as a natural number. -/
abbrev DecoratorSet := Nat

/-- An address; a C++ pointer is `Option Addr`, with `none` for `nullptr`. -/
abbrev Addr := Nat

/-- The element type enumeration `BasicType` is declared outside this header; a value is its
numeric code. -/
abbrev BasicType := Nat

/-- The enumeration `LoopOptsMode` is declared outside this header; a value is its numeric
code. -/
abbrev LoopOptsMode := Nat

/-- A `Register`, by its number. -/
abbrev Register := Nat

/-! ## The `C2_*` decorators -/

/-- The shift `x << i` on `DecoratorSet`. -/
def shl64 (x : DecoratorSet) (i : Nat) : DecoratorSet := (x <<< i) % 2 ^ decoratorBits

/-- The access is mismatched. `DECORATOR_LAST` is defined in `oops/accessDecorators.hpp`,
outside this header, and is an argument of each constant. -/
def C2_MISMATCHED (DECORATOR_LAST : DecoratorSet) : DecoratorSet := shl64 DECORATOR_LAST 1
/-- The access may not be aligned to its natural size. -/
def C2_UNALIGNED (DECORATOR_LAST : DecoratorSet) : DecoratorSet := shl64 DECORATOR_LAST 2
/-- The atomic cmpxchg is weak. -/
def C2_WEAK_CMPXCHG (DECORATOR_LAST : DecoratorSet) : DecoratorSet := shl64 DECORATOR_LAST 3
/-- The load has control dependency. -/
def C2_CONTROL_DEPENDENT_LOAD (DECORATOR_LAST : DecoratorSet) : DecoratorSet :=
  shl64 DECORATOR_LAST 4
/-- The load must be pinned, but may float above safepoints. -/
def C2_UNKNOWN_CONTROL_LOAD (DECORATOR_LAST : DecoratorSet) : DecoratorSet :=
  shl64 DECORATOR_LAST 5
/-- The access is produced from the Unsafe intrinsics. -/
def C2_UNSAFE_ACCESS (DECORATOR_LAST : DecoratorSet) : DecoratorSet := shl64 DECORATOR_LAST 6
/-- The access mutates state. -/
def C2_WRITE_ACCESS (DECORATOR_LAST : DecoratorSet) : DecoratorSet := shl64 DECORATOR_LAST 7
/-- The access reads state. -/
def C2_READ_ACCESS (DECORATOR_LAST : DecoratorSet) : DecoratorSet := shl64 DECORATOR_LAST 8
/-- A nearby allocation. -/
def C2_TIGHTLY_COUPLED_ALLOC (DECORATOR_LAST : DecoratorSet) : DecoratorSet :=
  shl64 DECORATOR_LAST 9
/-- Loads and stores from an arraycopy being optimized. -/
def C2_ARRAY_COPY (DECORATOR_LAST : DecoratorSet) : DecoratorSet := shl64 DECORATOR_LAST 10
/-- Loads from immutable memory. -/
def C2_IMMUTABLE_MEMORY (DECORATOR_LAST : DecoratorSet) : DecoratorSet :=
  shl64 DECORATOR_LAST 11

/-- The eleven constants, in the order of the header. -/
def c2Flags (DECORATOR_LAST : DecoratorSet) : List DecoratorSet :=
  [C2_MISMATCHED DECORATOR_LAST, C2_UNALIGNED DECORATOR_LAST, C2_WEAK_CMPXCHG DECORATOR_LAST,
   C2_CONTROL_DEPENDENT_LOAD DECORATOR_LAST, C2_UNKNOWN_CONTROL_LOAD DECORATOR_LAST,
   C2_UNSAFE_ACCESS DECORATOR_LAST, C2_WRITE_ACCESS DECORATOR_LAST,
   C2_READ_ACCESS DECORATOR_LAST, C2_TIGHTLY_COUPLED_ALLOC DECORATOR_LAST,
   C2_ARRAY_COPY DECORATOR_LAST, C2_IMMUTABLE_MEMORY DECORATOR_LAST]

/-- A descriptor built at a call site: the flags of `S` combined onto `base` with `|`. -/
def withFlags (base : DecoratorSet) (S : List DecoratorSet) : DecoratorSet :=
  S.foldl (fun d f => d ||| f) base

/-- The test `(decorators & flag) != 0`. -/
def testFlag (decorators flag : DecoratorSet) : Bool := (decorators &&& flag) != 0

/-- A descriptor of the base vocabulary: no bit above `DECORATOR_LAST`. -/
def isBaseDescriptor (DECORATOR_LAST base : DecoratorSet) : Prop := base < 2 * DECORATOR_LAST

/-! ## Register masks -/

/-- Modelled from the spec: `RegMask` (declared in `opto/regmask.hpp`, outside this header) is
a set of registers; `RegMask()` builds the empty set. -/
structure RegMask where
  regs : Finset Register
  deriving DecidableEq

/-- The constructor `RegMask()`. -/
def RegMask.empty : RegMask := ⟨∅⟩

/-- Modelled from the spec: `RegMask::Insert`, adding one register to the set. -/
def RegMask.Insert (m : RegMask) (r : Register) : RegMask := ⟨insert r m.regs⟩

/-- Modelled from the spec: `RegMask::Remove`, removing one register if it is present. -/
def RegMask.Remove (m : RegMask) (r : Register) : RegMask := ⟨m.regs.erase r⟩

/-! ## Nodes -/

/-- Modelled from the spec: `MachNode` (declared in `opto/machnode.hpp`, outside this header),
a machine instruction with its index and its barrier data byte. -/
structure MachNode where
  _idx : Nat
  barrier_data : Nat
  deriving DecidableEq

/-- Modelled from the spec: `Node` (declared in `opto/node.hpp`, outside this header), reduced
to what `BarrierSetC2State::live` reads of it: its index `_idx` and its class, that of a
machine instruction or not. -/
structure Node where
  _idx : Nat
  mach : Bool
  barrier_data : Nat
  deriving DecidableEq

/-- Modelled from the spec: the class query `Node::is_Mach()`, declared outside this header. -/
def Node.is_Mach (n : Node) : Bool := n.mach

/-- The failure of an `assert`. -/
inductive Fatal where
  | assertion (msg : String)
  deriving DecidableEq

/-- Modelled from the spec: the checked downcast `Node::as_Mach()`, declared outside this
header; on a node that is not a machine instruction it is a fatal assertion. -/
def Node.as_Mach (n : Node) : Except Fatal MachNode :=
  if n.is_Mach then .ok ⟨n._idx, n.barrier_data⟩ else .error (.assertion "invalid node class")

/-! ## `Node_Array` -/

/-- Modelled from the spec: `Node_Array` (declared in `opto/node.hpp`, outside this header) is
the mapping from an instruction index to its entry, null where nothing is mapped. -/
abbrev Node_Array := List (Option Addr)

/-- Modelled from the spec: the lookup `Node_Array::operator[]`, the entry or null where
nothing is mapped. -/
def Node_Array.lookup : Node_Array → Nat → Option Addr
  | [], _ => none
  | x :: _, 0 => x
  | _ :: xs, i + 1 => Node_Array.lookup xs i

/-- Modelled from the spec: the update `Node_Array::map(i, n)`, which stores `n` under index
`i`, growing the array to hold that index, and keeps every other entry. -/
def Node_Array.map : Node_Array → Nat → Option Addr → Node_Array
  | [], 0, n => [n]
  | [], i + 1, n => none :: Node_Array.map [] i n
  | _ :: xs, 0, n => n :: xs
  | x :: xs, i + 1, n => x :: Node_Array.map xs i n

/-! ## `BarrierSetC2State` -/

/-- The state `live` works on: the field `_live` and the compilation arena
(`Compile::current()->comp_arena()`), the list of the register masks allocated so far; the
address of a mask is its position in the arena. -/
structure BarrierSetC2State where
  _live : Node_Array
  comp_arena : List RegMask
  deriving DecidableEq

/-- The constructor `BarrierSetC2State(Arena* arena)`: nothing is mapped. -/
def BarrierSetC2State.new (arena : List RegMask) : BarrierSetC2State := ⟨[], arena⟩

/-- The allocation `new (comp_arena()->AmallocWords(sizeof(RegMask))) RegMask()`: a fresh
address holding an empty mask. -/
def BarrierSetC2State.allocRegMask (s : BarrierSetC2State) : Addr × BarrierSetC2State :=
  (s.comp_arena.length, { s with comp_arena := s.comp_arena ++ [RegMask.empty] })

/-- The method `BarrierSetC2State::live(const Node* node)`, for the collector's
`needs_liveness_data`. The result is the returned `RegMask*` and the state after the call. -/
def BarrierSetC2State.live (needs_liveness_data : MachNode → Bool)
    (s : BarrierSetC2State) (node : Node) : Except Fatal (Option Addr × BarrierSetC2State) :=
  if !node.is_Mach then
    -- Don't need liveness for non-MachNodes
    .ok (none, s)
  else do
    let mach ← node.as_Mach
    if !needs_liveness_data mach then
      -- ... or if the GC doesn't request it
      .ok (none, s)
    else
      match Node_Array.lookup s._live node._idx with
      | some live => .ok (some live, s)
      | none =>
        let (live, s1) := s.allocRegMask
        .ok (some live, { s1 with _live := Node_Array.map s1._live node._idx (some live) })

/-- A run of `live` queries, one after the other; the state after the last one. -/
def BarrierSetC2State.liveAll (needs_liveness_data : MachNode → Bool) :
    BarrierSetC2State → List Node → Except Fatal BarrierSetC2State
  | s, [] => .ok s
  | s, n :: ns => do
    let r ← BarrierSetC2State.live needs_liveness_data s n
    BarrierSetC2State.liveAll needs_liveness_data r.2 ns

/-! ## Access contexts -/

/-- Width of the field `_barrier_data` (`uint8_t`). -/
def barrierDataBits : Nat := 8

/-- The class `C2Access`: its six fields. `_addr` is the reference to the
`C2AccessValuePtr`, which the access does not own. -/
structure C2Access where
  _decorators : DecoratorSet
  _base : Option Addr
  _addr : Addr
  _raw_access : Option Addr
  _type : BasicType
  _barrier_data : Nat
  deriving DecidableEq

namespace C2Access

/-- The constructor `C2Access(decorators, type, base, addr)`. -/
def new (decorators : DecoratorSet) (type : BasicType) (base : Option Addr) (addr : Addr) :
    C2Access :=
  { _decorators := decorators % 2 ^ decoratorBits
    _base := base
    _addr := addr
    _raw_access := none
    _type := type
    _barrier_data := 0 }

def decorators (a : C2Access) : DecoratorSet := a._decorators
def base (a : C2Access) : Option Addr := a._base
def addr (a : C2Access) : Addr := a._addr
def type (a : C2Access) : BasicType := a._type
/-- The query `is_raw()`; `AS_RAW` is defined outside this header. -/
def is_raw (AS_RAW : DecoratorSet) (a : C2Access) : Bool := (a._decorators &&& AS_RAW) != 0
def raw_access (a : C2Access) : Option Addr := a._raw_access
def barrier_data (a : C2Access) : Nat := a._barrier_data

/-- The setter `set_barrier_data(uint8_t data)`. -/
def set_barrier_data (a : C2Access) (data : Nat) : C2Access :=
  { a with _barrier_data := data % 2 ^ barrierDataBits }

/-- The setter `set_raw_access(Node* raw_access)`. -/
def set_raw_access (a : C2Access) (raw_access : Option Addr) : C2Access :=
  { a with _raw_access := raw_access }

/-- The base `set_memory()`: a no-op for normal accesses. -/
def set_memory (a : C2Access) : C2Access := a

/-- The base `is_parse_access()`. -/
def is_parse_access (_ : C2Access) : Bool := false
/-- The base `is_opt_access()`. -/
def is_opt_access (_ : C2Access) : Bool := false

end C2Access

/-- A call of one of the public mutators of `C2Access`. -/
inductive C2AccessMutator where
  | set_barrier_data (data : Nat)
  | set_raw_access (raw_access : Option Addr)
  | set_memory
  deriving DecidableEq

/-- The effect of one mutator call. -/
def C2AccessMutator.apply (a : C2Access) : C2AccessMutator → C2Access
  | .set_barrier_data d => a.set_barrier_data d
  | .set_raw_access n => a.set_raw_access n
  | .set_memory => a.set_memory

/-- The effect of a run of mutator calls. -/
def C2Access.mutate (a : C2Access) (ms : List C2AccessMutator) : C2Access :=
  ms.foldl C2AccessMutator.apply a

/-- The class `C2ParseAccess`. -/
structure C2ParseAccess extends C2Access where
  _kit : Option Addr
  deriving DecidableEq

/-- The constructor of `C2ParseAccess`; `fixup_decorators` is defined outside this header. -/
def C2ParseAccess.new (fixup_decorators : C2Access → C2Access) (kit : Option Addr)
    (decorators : DecoratorSet) (type : BasicType) (base : Option Addr) (addr : Addr) :
    C2ParseAccess :=
  { toC2Access := fixup_decorators (C2Access.new decorators type base addr), _kit := kit }

/-- The override `C2ParseAccess::is_parse_access()`. -/
def C2ParseAccess.is_parse_access (_ : C2ParseAccess) : Bool := true

/-- The class `C2AtomicParseAccess`. -/
structure C2AtomicParseAccess extends C2ParseAccess where
  _memory : Option Addr
  _alias_idx : Nat
  deriving DecidableEq

/-- The constructor of `C2AtomicParseAccess`. -/
def C2AtomicParseAccess.new (fixup_decorators : C2Access → C2Access) (kit : Option Addr)
    (decorators : DecoratorSet) (type : BasicType) (base : Option Addr) (addr : Addr)
    (alias_idx : Nat) : C2AtomicParseAccess :=
  { toC2ParseAccess := C2ParseAccess.new fixup_decorators kit decorators type base addr
    _memory := none
    _alias_idx := alias_idx % 2 ^ 32 }

/-- The class `C2OptAccess`. -/
structure C2OptAccess extends C2Access where
  _gvn : Addr
  _mem : Option Addr
  _ctl : Option Addr
  deriving DecidableEq

/-- The constructor of `C2OptAccess`. -/
def C2OptAccess.new (fixup_decorators : C2Access → C2Access) (gvn : Addr) (ctl mem : Option Addr)
    (decorators : DecoratorSet) (type : BasicType) (base : Option Addr) (addr : Addr) :
    C2OptAccess :=
  { toC2Access := fixup_decorators (C2Access.new decorators type base addr)
    _gvn := gvn, _mem := mem, _ctl := ctl }

/-- The override `C2OptAccess::is_opt_access()`. -/
def C2OptAccess.is_opt_access (_ : C2OptAccess) : Bool := true

/-- An object of one of the three concrete access classes of the header. -/
inductive AccessContext where
  | parse (a : C2ParseAccess)
  | atomicParse (a : C2AtomicParseAccess)
  | opt (a : C2OptAccess)
  deriving DecidableEq

/-- The virtual call `is_parse_access()`: `C2ParseAccess` overrides it, `C2AtomicParseAccess`
inherits that override, `C2OptAccess` inherits the base body. -/
def AccessContext.is_parse_access : AccessContext → Bool
  | .parse a => C2ParseAccess.is_parse_access a
  | .atomicParse a => C2ParseAccess.is_parse_access a.toC2ParseAccess
  | .opt a => C2Access.is_parse_access a.toC2Access

/-- The virtual call `is_opt_access()`: only `C2OptAccess` overrides it. -/
def AccessContext.is_opt_access : AccessContext → Bool
  | .parse a => C2Access.is_opt_access a.toC2Access
  | .atomicParse a => C2Access.is_opt_access a.toC2Access
  | .opt a => C2OptAccess.is_opt_access a

/-- Every entry of `_live` is the address of a register mask of the arena. -/
def BarrierSetC2State.wf (s : BarrierSetC2State) : Bool :=
  s._live.all fun e =>
    match e with
    | none => true
    | some a => decide (a < s.comp_arena.length)

/-! ## `BarrierStubC2` -/

/-- Modelled from the spec: `Label` (declared outside this header), a program-point marker,
by its position once bound. -/
structure Label where
  loc : Option Nat
  deriving DecidableEq

/-- The constructor `Label()`: an unbound label. -/
def Label.new : Label := ⟨none⟩

/-- The class `BarrierStubC2`: its four fields. -/
structure BarrierStubC2 where
  _node : MachNode
  _entry : Label
  _continuation : Label
  _preserve : RegMask
  deriving DecidableEq

namespace BarrierStubC2

/-- Modelled from the spec: the constructor `BarrierStubC2(const MachNode* node)`, whose body
is outside this header: "entry/continuation markers assigned, empty preserved-register
set". -/
def new (node : MachNode) : BarrierStubC2 :=
  { _node := node, _entry := Label.new, _continuation := Label.new, _preserve := RegMask.empty }

/-- Modelled from the spec: the state "frozen (emitted into the code buffer; no further
mutation)" of the stub's life cycle constructed, populated, frozen. A stub is emitted by
binding its entry label to the position of its code, so the frozen stubs are those whose entry
label is bound; a newly constructed stub has an unbound entry label. -/
def frozen (stub : BarrierStubC2) : Bool := stub._entry.loc.isSome

/-- Modelled from the spec: the emission of the stub into the code buffer at position `pos`,
the one-directional transition to the frozen state. It binds the entry label and leaves the
preserve set as it is; on a stub that is frozen already it does nothing. -/
def emit (stub : BarrierStubC2) (pos : Nat) : BarrierStubC2 :=
  if stub.frozen then stub else { stub with _entry := ⟨some pos⟩ }

/-- Modelled from the spec: `preserve(Register reg)`, whose body is outside this header:
"adds to the set idempotently", and "once a stub is frozen, preserve/dontPreserve calls must
be rejected or no-ops". Mutating a frozen stub is "a fatal assertion in debug builds": with
`ASSERT` (a debug build) the call on a frozen stub is rejected, without it the call is a
no-op. -/
def preserve (ASSERT : Bool) (stub : BarrierStubC2) (reg : Register) :
    Except Fatal BarrierStubC2 :=
  if stub.frozen then
    if ASSERT then .error (.assertion "stub is frozen") else .ok stub
  else
    .ok { stub with _preserve := stub._preserve.Insert reg }

/-- Modelled from the spec: `dont_preserve(Register reg)`, whose body is outside this header:
"removes if present", and "once a stub is frozen, preserve/dontPreserve calls must be rejected
or no-ops". With `ASSERT` (a debug build) the call on a frozen stub is rejected, without it
the call is a no-op. -/
def dont_preserve (ASSERT : Bool) (stub : BarrierStubC2) (reg : Register) :
    Except Fatal BarrierStubC2 :=
  if stub.frozen then
    if ASSERT then .error (.assertion "stub is frozen") else .ok stub
  else
    .ok { stub with _preserve := stub._preserve.Remove reg }

/-- Modelled from the spec: `preserve_set()`, whose body is outside this header: the set of
registers to preserve across runtime calls in this barrier. -/
def preserve_set (stub : BarrierStubC2) : RegMask := stub._preserve

end BarrierStubC2

/-! ## `BarrierSetC2` -/

/-- The enumeration `BarrierSetC2::ArrayCopyPhase`. -/
inductive ArrayCopyPhase where
  | Parsing
  | Optimization
  | Expansion
  deriving DecidableEq

/-- The enumeration `BarrierSetC2::CompilePhase`. -/
inductive CompilePhase where
  | BeforeOptimize
  | BeforeMacroExpand
  | BeforeCodeGen
  deriving DecidableEq

/-- Modelled from the spec: the collector-private state behind the `void*` of
`create_barrier_state`, "a worklist of macro-expandable barrier markers". -/
structure BarrierState where
  worklist : List Addr
  deriving DecidableEq

/-- The part of the compilation unit (`Compile`, declared outside this header) that the hooks
can reach: the slot holding the result of `create_barrier_state`. -/
structure Compile where
  barrier_set_state : Option BarrierState
  deriving DecidableEq

/-- The barrier markers registered in the state of a compilation unit. -/
def Compile.markers (C : Compile) : List Addr :=
  match C.barrier_set_state with
  | none => []
  | some st => st.worklist

/-- The virtual hooks of `BarrierSetC2` that have a body in the header, as a table of
functions. A hook whose body has no effect on the compilation unit is its result; a `void`
hook and `expand_barriers` take the compilation unit and return it. -/
structure BarrierSetC2 where
  ideal_node : Option Addr → Option Addr → Bool → Option Addr
  array_copy_requires_gc_barriers : Bool → BasicType → Bool → Bool → ArrayCopyPhase → Bool
  has_load_barrier_nodes : Bool
  is_gc_pre_barrier_node : Option Addr → Bool
  is_gc_barrier_node : Option Addr → Bool
  step_over_gc_barrier : Option Addr → Option Addr
  register_potential_barrier_node : Compile → Option Addr → Compile
  unregister_potential_barrier_node : Compile → Option Addr → Compile
  eliminate_gc_barrier : Compile → Option Addr → Option Addr → Compile
  eliminate_gc_barrier_data : Compile → Option Addr → Compile
  enqueue_useful_gc_barrier : Compile → Option Addr → Option Addr → Compile
  eliminate_useless_gc_barriers : Compile → Addr → Compile
  create_barrier_state : Option Addr → Option BarrierState
  expand_barriers : Compile → Addr → Bool × Compile
  optimize_loops : Option Addr → LoopOptsMode → Addr → Addr → Addr → Bool
  strip_mined_loops_expanded : LoopOptsMode → Bool
  is_gc_specific_loop_opts_pass : LoopOptsMode → Bool
  estimated_barrier_size : Option Addr → Nat
  can_initialize_object : Option Addr → Bool
  verify_gc_barriers : Compile → CompilePhase → Compile
  final_graph_reshaping : Option Addr → Option Addr → Nat → Addr → Bool
  escape_add_to_con_graph : Option Addr → Option Addr → Option Addr → Option Addr → Nat → Bool
  escape_add_final_edges : Option Addr → Option Addr → Option Addr → Nat → Bool
  escape_has_out_with_unsafe_object : Option Addr → Bool
  matcher_find_shared_post_visit : Option Addr → Option Addr → Nat → Bool
  matcher_is_store_load_barrier : Option Addr → Nat → Bool
  elide_dominated_barrier : Compile → Option Addr → Compile
  late_barrier_analysis : Compile → Compile
  estimate_stub_size : Int
  emit_stubs : Compile → Addr → Compile

/-- The backend that overrides nothing: every hook has the body the header gives it. -/
def BarrierSetC2.default : BarrierSetC2 where
  ideal_node _phase _n _can_reshape := none
  array_copy_requires_gc_barriers _tightly_coupled_alloc _type _is_clone _is_clone_instance
    _phase := false
  has_load_barrier_nodes := false
  is_gc_pre_barrier_node _node := false
  is_gc_barrier_node _node := false
  step_over_gc_barrier c := c
  register_potential_barrier_node C _node := C
  unregister_potential_barrier_node C _node := C
  eliminate_gc_barrier C _macro _node := C
  eliminate_gc_barrier_data C _node := C
  enqueue_useful_gc_barrier C _igvn _node := C
  eliminate_useless_gc_barriers C _useful := C
  create_barrier_state _comp_arena := none
  expand_barriers C _igvn := (false, C)
  optimize_loops _phase _mode _visited _nstack _worklist := false
  strip_mined_loops_expanded _mode := false
  is_gc_specific_loop_opts_pass _mode := false
  estimated_barrier_size _node := 0
  can_initialize_object _store := true
  verify_gc_barriers C _phase := C
  final_graph_reshaping _compile _n _opcode _dead_nodes := false
  escape_add_to_con_graph _conn_graph _gvn _delayed_worklist _n _opcode := false
  escape_add_final_edges _conn_graph _gvn _n _opcode := false
  escape_has_out_with_unsafe_object _n := false
  matcher_find_shared_post_visit _matcher _n _opcode := false
  matcher_is_store_load_barrier _x _xop := false
  elide_dominated_barrier C _mach := C
  late_barrier_analysis C := C
  estimate_stub_size := 0
  emit_stubs C _cb := C

/-- The compilation unit right after `create_barrier_state` filled its state slot. -/
def Compile.new (bs : BarrierSetC2) (comp_arena : Option Addr) : Compile :=
  ⟨bs.create_barrier_state comp_arena⟩

/-- A call of one of the hooks that act on the compilation unit. -/
inductive HookCall where
  | register_potential_barrier_node (node : Option Addr)
  | unregister_potential_barrier_node (node : Option Addr)
  | eliminate_gc_barrier (phase node : Option Addr)
  | eliminate_gc_barrier_data (node : Option Addr)
  | enqueue_useful_gc_barrier (igvn node : Option Addr)
  | eliminate_useless_gc_barriers (useful : Addr)
  | expand_barriers (igvn : Addr)
  | verify_gc_barriers (phase : CompilePhase)
  | elide_dominated_barrier (mach : Option Addr)
  | late_barrier_analysis
  | emit_stubs (cb : Addr)
  deriving DecidableEq

/-- The compilation unit after one hook call on backend `bs`. -/
def HookCall.run (bs : BarrierSetC2) (C : Compile) : HookCall → Compile
  | .register_potential_barrier_node n => bs.register_potential_barrier_node C n
  | .unregister_potential_barrier_node n => bs.unregister_potential_barrier_node C n
  | .eliminate_gc_barrier m n => bs.eliminate_gc_barrier C m n
  | .eliminate_gc_barrier_data n => bs.eliminate_gc_barrier_data C n
  | .enqueue_useful_gc_barrier i n => bs.enqueue_useful_gc_barrier C i n
  | .eliminate_useless_gc_barriers u => bs.eliminate_useless_gc_barriers C u
  | .expand_barriers i => (bs.expand_barriers C i).2
  | .verify_gc_barriers p => bs.verify_gc_barriers C p
  | .elide_dominated_barrier m => bs.elide_dominated_barrier C m
  | .late_barrier_analysis => bs.late_barrier_analysis C
  | .emit_stubs cb => bs.emit_stubs C cb

/-- The compilation unit after a run of hook calls. -/
def Compile.runHooks (bs : BarrierSetC2) (C : Compile) (calls : List HookCall) : Compile :=
  calls.foldl (HookCall.run bs) C

/-- The result of applying `step_over_gc_barrier` repeatedly, `k` times. -/
def BarrierSetC2.step_over_gc_barrier_iter (bs : BarrierSetC2) : Nat → Option Addr → Option Addr
  | 0, c => c
  | k + 1, c => BarrierSetC2.step_over_gc_barrier_iter bs k (bs.step_over_gc_barrier c)

end BarrierSetC2Model

namespace BarrierSetC2Model

/-! ## Lemmas on `Node_Array` -/

theorem Node_Array.lookup_map_same (a : Node_Array) (i : Nat) (n : Option Addr) :
    Node_Array.lookup (Node_Array.map a i n) i = n := by
  induction i generalizing a with
  | zero => cases a <;> rfl
  | succ i ih =>
    cases a with
    | nil => exact ih []
    | cons x xs => exact ih xs

theorem Node_Array.lookup_nil (j : Nat) : Node_Array.lookup [] j = none := by
  cases j <;> rfl

theorem Node_Array.lookup_map_other (a : Node_Array) (i j : Nat) (n : Option Addr)
    (hij : j ≠ i) : Node_Array.lookup (Node_Array.map a i n) j = Node_Array.lookup a j := by
  induction i generalizing a j with
  | zero =>
    cases j with
    | zero => exact absurd rfl hij
    | succ j => cases a <;> simp [Node_Array.map, Node_Array.lookup, Node_Array.lookup_nil]
  | succ i ih =>
    cases j with
    | zero => cases a <;> rfl
    | succ j =>
      have hji : j ≠ i := fun h => hij (by rw [h])
      cases a with
      | nil =>
        show Node_Array.lookup (Node_Array.map [] i n) j = none
        rw [ih [] j hji, Node_Array.lookup_nil]
      | cons x xs => exact ih xs j hji

/-! ## Lemmas on `BarrierSetC2State::live` -/

/-- The value of `live` on a node that is not a machine instruction. -/
theorem live_of_not_mach (needs : MachNode → Bool) (s : BarrierSetC2State) (node : Node)
    (h : node.is_Mach = false) :
    BarrierSetC2State.live needs s node = .ok (none, s) := by
  simp [BarrierSetC2State.live, h]

/-- The value of `live` on a machine instruction whose liveness is not tracked. -/
theorem live_of_not_needed (needs : MachNode → Bool) (s : BarrierSetC2State) (node : Node)
    (h : node.is_Mach = true) (hn : needs ⟨node._idx, node.barrier_data⟩ = false) :
    BarrierSetC2State.live needs s node = .ok (none, s) := by
  simp [BarrierSetC2State.live, Node.as_Mach, h, hn, bind, Except.bind]

/-- The value of `live` on a tracked machine instruction that has an entry. -/
theorem live_of_mapped (needs : MachNode → Bool) (s : BarrierSetC2State) (node : Node)
    (p : Addr) (h : node.is_Mach = true) (hn : needs ⟨node._idx, node.barrier_data⟩ = true)
    (hp : Node_Array.lookup s._live node._idx = some p) :
    BarrierSetC2State.live needs s node = .ok (some p, s) := by
  simp [BarrierSetC2State.live, Node.as_Mach, h, hn, hp, bind, Except.bind]

/-- The value of `live` on a tracked machine instruction that has no entry yet. -/
theorem live_of_unmapped (needs : MachNode → Bool) (s : BarrierSetC2State) (node : Node)
    (h : node.is_Mach = true) (hn : needs ⟨node._idx, node.barrier_data⟩ = true)
    (hp : Node_Array.lookup s._live node._idx = none) :
    BarrierSetC2State.live needs s node =
      .ok (some s.comp_arena.length,
        { _live := Node_Array.map s._live node._idx (some s.comp_arena.length)
          comp_arena := s.comp_arena ++ [RegMask.empty] }) := by
  simp [BarrierSetC2State.live, Node.as_Mach, h, hn, hp, bind, Except.bind,
    BarrierSetC2State.allocRegMask]

theorem Node_Array.mem_of_lookup (a : Node_Array) (i : Nat) (p : Addr)
    (h : Node_Array.lookup a i = some p) : some p ∈ a := by
  induction a generalizing i with
  | nil => simp [Node_Array.lookup] at h
  | cons x xs ih =>
    cases i with
    | zero =>
      have hx : x = some p := h
      simp [hx]
    | succ i => exact List.mem_cons_of_mem _ (ih i h)

theorem Node_Array.mem_map (a : Node_Array) (i : Nat) (n e : Option Addr)
    (h : e ∈ Node_Array.map a i n) : e ∈ a ∨ e = n ∨ e = none := by
  induction i generalizing a with
  | zero =>
    cases a with
    | nil =>
      simp [Node_Array.map] at h
      exact Or.inr (Or.inl h)
    | cons x xs =>
      simp [Node_Array.map] at h
      rcases h with h | h
      · exact Or.inr (Or.inl h)
      · exact Or.inl (List.mem_cons_of_mem _ h)
  | succ i ih =>
    cases a with
    | nil =>
      simp only [Node_Array.map, List.mem_cons] at h
      rcases h with h | h
      · exact Or.inr (Or.inr h)
      · rcases ih [] h with h1 | h1
        · exact Or.inl h1
        · exact Or.inr h1
    | cons x xs =>
      simp only [Node_Array.map, List.mem_cons] at h
      rcases h with h | h
      · exact Or.inl (by simp [h])
      · rcases ih xs h with h1 | h1
        · exact Or.inl (List.mem_cons_of_mem _ h1)
        · exact Or.inr h1

/-- Every node is in one of the three cases of `live`. -/
theorem live_cases (needs : MachNode → Bool) (s : BarrierSetC2State) (node : Node) :
    (BarrierSetC2State.live needs s node = .ok (none, s) ∧
      (node.is_Mach = false ∨ needs ⟨node._idx, node.barrier_data⟩ = false)) ∨
    (node.is_Mach = true ∧ needs ⟨node._idx, node.barrier_data⟩ = true ∧
      ((∃ p, Node_Array.lookup s._live node._idx = some p ∧
          BarrierSetC2State.live needs s node = .ok (some p, s)) ∨
       (Node_Array.lookup s._live node._idx = none ∧
          BarrierSetC2State.live needs s node =
            .ok (some s.comp_arena.length,
              { _live := Node_Array.map s._live node._idx (some s.comp_arena.length)
                comp_arena := s.comp_arena ++ [RegMask.empty] })))) := by
  cases h : node.is_Mach with
  | false => exact Or.inl ⟨live_of_not_mach needs s node h, Or.inl rfl⟩
  | true =>
    cases hn : needs ⟨node._idx, node.barrier_data⟩ with
    | false => exact Or.inl ⟨live_of_not_needed needs s node h hn, Or.inr rfl⟩
    | true =>
      refine Or.inr ⟨rfl, rfl, ?_⟩
      cases hp : Node_Array.lookup s._live node._idx with
      | none => exact Or.inr ⟨rfl, live_of_unmapped needs s node h hn hp⟩
      | some p => exact Or.inl ⟨p, rfl, live_of_mapped needs s node p h hn hp⟩

/-- A query keeps every entry that is already set, whatever node is queried. -/
theorem live_keeps_entry (needs : MachNode → Bool) (s s1 : BarrierSetC2State) (node : Node)
    (r : Option Addr) (i : Nat) (p : Addr)
    (hp : Node_Array.lookup s._live i = some p)
    (h : BarrierSetC2State.live needs s node = .ok (r, s1)) :
    Node_Array.lookup s1._live i = some p := by
  rcases live_cases needs s node with ⟨h0, _⟩ | ⟨_, _, ⟨q, _, h1⟩ | ⟨hq, h2⟩⟩
  · rw [h0] at h
    cases h
    exact hp
  · rw [h1] at h
    cases h
    exact hp
  · rw [h2] at h
    cases h
    have hne : i ≠ node._idx := by
      intro e
      rw [e, hq] at hp
      cases hp
    show Node_Array.lookup (Node_Array.map s._live node._idx _) i = some p
    rw [Node_Array.lookup_map_other _ _ _ _ hne]
    exact hp

/-- A run of queries succeeds and keeps every entry that is already set. -/
theorem liveAll_keeps_entry (needs : MachNode → Bool) (ns : List Node) :
    ∀ (s : BarrierSetC2State) (i : Nat) (p : Addr),
      Node_Array.lookup s._live i = some p →
      ∃ s1, BarrierSetC2State.liveAll needs s ns = .ok s1 ∧
        Node_Array.lookup s1._live i = some p := by
  induction ns with
  | nil => intro s i p hp; exact ⟨s, rfl, hp⟩
  | cons n ns ih =>
    intro s i p hp
    have hstep : ∃ r s1, BarrierSetC2State.live needs s n = .ok (r, s1) := by
      rcases live_cases needs s n with ⟨h0, _⟩ | ⟨_, _, ⟨q, _, h1⟩ | ⟨_, h2⟩⟩
      · exact ⟨_, _, h0⟩
      · exact ⟨_, _, h1⟩
      · exact ⟨_, _, h2⟩
    obtain ⟨r, s1, h1⟩ := hstep
    obtain ⟨s2, h2, h3⟩ := ih s1 i p (live_keeps_entry needs s s1 n r i p hp h1)
    refine ⟨s2, ?_, h3⟩
    simp [BarrierSetC2State.liveAll, h1, bind, Except.bind, h2]

/-- A query keeps the state well formed. -/
theorem live_keeps_wf (needs : MachNode → Bool) (s s1 : BarrierSetC2State) (node : Node)
    (r : Option Addr) (hwf : s.wf = true)
    (h : BarrierSetC2State.live needs s node = .ok (r, s1)) : s1.wf = true := by
  rcases live_cases needs s node with ⟨h0, _⟩ | ⟨_, _, ⟨q, _, h1⟩ | ⟨hq, h2⟩⟩
  · rw [h0] at h
    cases h
    exact hwf
  · rw [h1] at h
    cases h
    exact hwf
  · rw [h2] at h
    cases h
    simp only [BarrierSetC2State.wf, List.all_eq_true] at hwf ⊢
    intro e he
    rcases Node_Array.mem_map _ _ _ _ he with h3 | h3 | h3
    · have := hwf e h3
      cases e with
      | none => rfl
      | some a =>
        have h4 : a < s.comp_arena.length := by simpa using this
        have h5 : a < s.comp_arena.length + 1 := Nat.lt_succ_of_lt h4
        simpa using h5
    · subst h3
      simp
    · subst h3
      rfl

/-- A query changes no entry under another index than that of the queried node. -/
theorem live_frame (needs : MachNode → Bool) (s s1 : BarrierSetC2State) (node : Node)
    (r : Option Addr) (h : BarrierSetC2State.live needs s node = .ok (r, s1)) (j : Nat)
    (hj : j ≠ node._idx) : Node_Array.lookup s1._live j = Node_Array.lookup s._live j := by
  rcases live_cases needs s node with ⟨h0, _⟩ | ⟨_, _, ⟨q, _, h1⟩ | ⟨_, h2⟩⟩
  · rw [h0] at h
    cases h
    rfl
  · rw [h1] at h
    cases h
    rfl
  · rw [h2] at h
    cases h
    exact Node_Array.lookup_map_other _ _ _ _ hj

/-- A query that returns null leaves the state as it was. -/
theorem live_null_state (needs : MachNode → Bool) (s s1 : BarrierSetC2State) (node : Node)
    (h : BarrierSetC2State.live needs s node = .ok (none, s1)) : s1 = s := by
  rcases live_cases needs s node with ⟨h0, _⟩ | ⟨_, _, ⟨q, _, h1⟩ | ⟨_, h2⟩⟩
  · rw [h0] at h
    cases h
    rfl
  · rw [h1] at h
    cases h
  · rw [h2] at h
    cases h

/-! ## The liveness cache -/

/-- C1: for every node and every liveness state, `live(node)` returns a result, and the result
is null if and only if the node is not a machine instruction or `needs_liveness_data` reports
false for it; in every other case the result is a non-null pointer, which in a well-formed
state is the address of a register mask of the arena. -/
theorem live_null_iff (needs : MachNode → Bool) (s : BarrierSetC2State) (node : Node) :
    ∃ r s1, BarrierSetC2State.live needs s node = .ok (r, s1) ∧
      (r = none ↔ (node.is_Mach = false ∨ ∃ m, node.as_Mach = .ok m ∧ needs m = false)) ∧
      (¬ (node.is_Mach = false ∨ ∃ m, node.as_Mach = .ok m ∧ needs m = false) →
        ∃ p, r = some p ∧ (s.wf = true → p < s1.comp_arena.length)) := by
  rcases live_cases needs s node with ⟨h0, hc⟩ | ⟨hm, hn, ⟨q, hq, h1⟩ | ⟨hq, h2⟩⟩
  · have hcond : node.is_Mach = false ∨ ∃ m, node.as_Mach = .ok m ∧ needs m = false := by
      cases hm : node.is_Mach with
      | false => exact Or.inl rfl
      | true =>
        rcases hc with hc | hc
        · rw [hm] at hc
          cases hc
        · exact Or.inr ⟨_, by simp [Node.as_Mach, hm], hc⟩
    exact ⟨none, s, h0, ⟨fun _ => hcond, fun _ => rfl⟩, fun hneg => absurd hcond hneg⟩
  · have hcond : ¬ (node.is_Mach = false ∨ ∃ m, node.as_Mach = .ok m ∧ needs m = false) := by
      rintro (h | ⟨m, hm1, hm2⟩)
      · rw [hm] at h
        cases h
      · simp [Node.as_Mach, hm] at hm1
        rw [← hm1, hn] at hm2
        cases hm2
    refine ⟨some q, s, h1, ⟨fun h => Option.noConfusion h, fun h => absurd h hcond⟩, fun _ => ?_⟩
    refine ⟨q, rfl, fun hwf => ?_⟩
    have hmem := Node_Array.mem_of_lookup _ _ _ hq
    simp only [BarrierSetC2State.wf, List.all_eq_true] at hwf
    simpa using hwf _ hmem
  · have hcond : ¬ (node.is_Mach = false ∨ ∃ m, node.as_Mach = .ok m ∧ needs m = false) := by
      rintro (h | ⟨m, hm1, hm2⟩)
      · rw [hm] at h
        cases h
      · simp [Node.as_Mach, hm] at hm1
        rw [← hm1, hn] at hm2
        cases hm2
    refine ⟨_, _, h2, ⟨fun h => Option.noConfusion h, fun h => absurd h hcond⟩, fun _ => ?_⟩
    exact ⟨_, rfl, fun _ => by simp⟩

/-- C2: for a machine instruction whose liveness is tracked and that has no entry yet, the
first `live(node)` query allocates an empty register mask at a fresh address and stores that
address under the index of the node; a second query, and a query after any run of other
queries, returns the same address and leaves the state, mapping and arena, as it was. A query
changes no entry under another index, and a query that returns null changes nothing. -/
theorem live_first_then_same (needs : MachNode → Bool) (s : BarrierSetC2State) (node : Node)
    (hmach : node.is_Mach = true) (hneeds : needs ⟨node._idx, node.barrier_data⟩ = true)
    (hfirst : Node_Array.lookup s._live node._idx = none) :
    ∃ s1, BarrierSetC2State.live needs s node = .ok (some s.comp_arena.length, s1) ∧
      s1.comp_arena = s.comp_arena ++ [RegMask.empty] ∧
      s1.comp_arena[s.comp_arena.length]? = some RegMask.empty ∧
      Node_Array.lookup s1._live node._idx = some s.comp_arena.length ∧
      BarrierSetC2State.live needs s1 node = .ok (some s.comp_arena.length, s1) ∧
      (∀ ns : List Node, ∃ s2, BarrierSetC2State.liveAll needs s1 ns = .ok s2 ∧
        BarrierSetC2State.live needs s2 node = .ok (some s.comp_arena.length, s2)) ∧
      (∀ (t t1 : BarrierSetC2State) (n : Node) (r : Option Addr),
        BarrierSetC2State.live needs t n = .ok (r, t1) →
        ∀ j, j ≠ n._idx → Node_Array.lookup t1._live j = Node_Array.lookup t._live j) ∧
      (∀ (t t1 : BarrierSetC2State) (n : Node),
        BarrierSetC2State.live needs t n = .ok (none, t1) → t1 = t) := by
  refine ⟨_, live_of_unmapped needs s node hmach hneeds hfirst, rfl, ?_, ?_, ?_, ?_, ?_, ?_⟩
  · simp
  · exact Node_Array.lookup_map_same _ _ _
  · exact live_of_mapped needs _ node _ hmach hneeds (Node_Array.lookup_map_same _ _ _)
  · intro ns
    obtain ⟨s2, h2, h3⟩ := liveAll_keeps_entry needs ns
      { _live := Node_Array.map s._live node._idx (some s.comp_arena.length)
        comp_arena := s.comp_arena ++ [RegMask.empty] }
      node._idx s.comp_arena.length
      (Node_Array.lookup_map_same s._live node._idx (some s.comp_arena.length))
    exact ⟨s2, h2, live_of_mapped needs s2 node _ hmach hneeds h3⟩
  · intro t t1 n r h j hj
    exact live_frame needs t t1 n r h j hj
  · intro t t1 n h
    exact live_null_state needs t t1 n h

/-- C2, at a concrete input: on the empty state, the first query for instruction 3 returns
address 0 and so does the second, without a change of state. -/
theorem live_first_then_same_witness :
    Node.is_Mach ⟨3, true, 0⟩ = true ∧
    Node_Array.lookup (BarrierSetC2State.new [])._live 3 = none ∧
    ∃ s1, BarrierSetC2State.live (fun _ => true) (BarrierSetC2State.new []) ⟨3, true, 0⟩
        = .ok (some 0, s1) ∧
      BarrierSetC2State.live (fun _ => true) s1 ⟨3, true, 0⟩ = .ok (some 0, s1) := by
  refine ⟨rfl, rfl, ?_⟩
  obtain ⟨s1, h1, _, _, _, h5, _⟩ :=
    live_first_then_same (fun _ => true) (BarrierSetC2State.new []) ⟨3, true, 0⟩ rfl rfl rfl
  exact ⟨s1, h1, h5⟩

/-- C7, refuted as stated: the query for a node that is not a machine instruction returns
null to the caller; it does not fail. -/
theorem live_non_mach_counterexample :
    BarrierSetC2State.live (fun _ => true) (BarrierSetC2State.new []) ⟨0, false, 0⟩
        = .ok (none, BarrierSetC2State.new []) ∧
    ¬ ∃ e, BarrierSetC2State.live (fun _ => true) (BarrierSetC2State.new []) ⟨0, false, 0⟩
        = .error e := by
  constructor
  · rfl
  · rintro ⟨e, h⟩
    cases h

/-- C7, amended: the query for a node that is not a machine instruction raises no assertion;
it returns null and leaves the state unchanged. -/
theorem live_non_mach_returns_null (needs : MachNode → Bool) (s : BarrierSetC2State)
    (node : Node) (h : node.is_Mach = false) :
    BarrierSetC2State.live needs s node = .ok (none, s) ∧
    ∀ e, BarrierSetC2State.live needs s node ≠ .error e := by
  have h0 := live_of_not_mach needs s node h
  refine ⟨h0, fun e he => ?_⟩
  rw [h0] at he
  cases he

/-- C7, amended, at a concrete input: node 5, not a machine instruction. -/
theorem live_non_mach_returns_null_witness :
    Node.is_Mach ⟨5, false, 0⟩ = false ∧
    BarrierSetC2State.live (fun _ => false) (BarrierSetC2State.new [RegMask.empty]) ⟨5, false, 0⟩
      = .ok (none, BarrierSetC2State.new [RegMask.empty]) :=
  ⟨rfl, (live_non_mach_returns_null (fun _ => false) (BarrierSetC2State.new [RegMask.empty])
    ⟨5, false, 0⟩ rfl).1⟩

/-! ## Access contexts -/

/-- C3: for every object of the three concrete access classes exactly one of
`is_parse_access()` and `is_opt_access()` is true: a `C2ParseAccess` and a
`C2AtomicParseAccess` report (true, false), a `C2OptAccess` reports (false, true). -/
theorem access_exactly_one_lifetime_tag (a : AccessContext) :
    xor a.is_parse_access a.is_opt_access = true ∧
    (∀ p : C2ParseAccess, (AccessContext.parse p).is_parse_access = true ∧
      (AccessContext.parse p).is_opt_access = false) ∧
    (∀ p : C2AtomicParseAccess, (AccessContext.atomicParse p).is_parse_access = true ∧
      (AccessContext.atomicParse p).is_opt_access = false) ∧
    (∀ p : C2OptAccess, (AccessContext.opt p).is_parse_access = false ∧
      (AccessContext.opt p).is_opt_access = true) := by
  refine ⟨?_, fun _ => ⟨rfl, rfl⟩, fun _ => ⟨rfl, rfl⟩, fun _ => ⟨rfl, rfl⟩⟩
  cases a <;> rfl

/-- One mutator call keeps the decorators, the base, the address and the element type. -/
theorem C2AccessMutator.apply_frame (a : C2Access) (m : C2AccessMutator) :
    (C2AccessMutator.apply a m)._decorators = a._decorators ∧
    (C2AccessMutator.apply a m)._base = a._base ∧
    (C2AccessMutator.apply a m)._addr = a._addr ∧
    (C2AccessMutator.apply a m)._type = a._type := by
  cases m <;> exact ⟨rfl, rfl, rfl, rfl⟩

/-- A run of mutator calls keeps the decorators, the base, the address and the element
type. -/
theorem C2Access.mutate_frame (ms : List C2AccessMutator) :
    ∀ a : C2Access, (a.mutate ms)._decorators = a._decorators ∧
      (a.mutate ms)._base = a._base ∧ (a.mutate ms)._addr = a._addr ∧
      (a.mutate ms)._type = a._type := by
  induction ms with
  | nil => intro a; exact ⟨rfl, rfl, rfl, rfl⟩
  | cons m ms ih =>
    intro a
    obtain ⟨h1, h2, h3, h4⟩ := ih (C2AccessMutator.apply a m)
    obtain ⟨g1, g2, g3, g4⟩ := C2AccessMutator.apply_frame a m
    exact ⟨h1.trans g1, h2.trans g2, h3.trans g3, h4.trans g4⟩

/-- C10: an access built by the base constructor reports the decorators, base, address and
element type it was given, a null `raw_access()` and `barrier_data()` 0. On every access,
`set_barrier_data(d)` makes `barrier_data()` return `d` and changes no other field,
`set_raw_access(n)` makes `raw_access()` return `n` and changes no other field, the base
`set_memory()` changes nothing; so after any run of these calls `decorators()`, `base()`,
`addr()`, `type()` and `is_raw()` are what they were. -/
theorem access_fields_and_frame (decorators : DecoratorSet) (type : BasicType)
    (base : Option Addr) (addr : Addr) (d : Nat) (n : Option Addr) (AS_RAW : DecoratorSet)
    (hdec : decorators < 2 ^ decoratorBits) (hd : d < 2 ^ barrierDataBits) :
    (C2Access.new decorators type base addr).decorators = decorators ∧
    (C2Access.new decorators type base addr).base = base ∧
    (C2Access.new decorators type base addr).addr = addr ∧
    (C2Access.new decorators type base addr).type = type ∧
    (C2Access.new decorators type base addr).raw_access = none ∧
    (C2Access.new decorators type base addr).barrier_data = 0 ∧
    (∀ a : C2Access,
      (a.set_barrier_data d).barrier_data = d ∧
      a.set_barrier_data d = { a with _barrier_data := d } ∧
      (a.set_raw_access n).raw_access = n ∧
      a.set_raw_access n = { a with _raw_access := n } ∧
      a.set_memory = a ∧
      ∀ ms : List C2AccessMutator,
        (a.mutate ms).decorators = a.decorators ∧ (a.mutate ms).base = a.base ∧
        (a.mutate ms).addr = a.addr ∧ (a.mutate ms).type = a.type ∧
        (a.mutate ms).is_raw AS_RAW = a.is_raw AS_RAW) := by
  have h64 : decorators % 2 ^ decoratorBits = decorators := Nat.mod_eq_of_lt hdec
  have h8 : d % 2 ^ barrierDataBits = d := Nat.mod_eq_of_lt hd
  refine ⟨h64, rfl, rfl, rfl, rfl, rfl, fun a => ⟨h8, ?_, rfl, rfl, rfl, fun ms => ?_⟩⟩
  · simp only [C2Access.set_barrier_data, h8]
  · obtain ⟨h1, h2, h3, h4⟩ := C2Access.mutate_frame ms a
    refine ⟨h1, h2, h3, h4, ?_⟩
    simp only [C2Access.is_raw, h1]

/-- C10, at a concrete input: decorators 5, barrier data 7. -/
theorem access_fields_and_frame_witness :
    5 < 2 ^ decoratorBits ∧ 7 < 2 ^ barrierDataBits ∧
    (C2Access.new 5 8 (some 1) 2).decorators = 5 ∧
    ((C2Access.new 5 8 (some 1) 2).set_barrier_data 7).barrier_data = 7 ∧
    (((C2Access.new 5 8 (some 1) 2).mutate
      [.set_barrier_data 7, .set_raw_access (some 9), .set_memory]).is_raw 4
        = (C2Access.new 5 8 (some 1) 2).is_raw 4) := by
  have h := access_fields_and_frame 5 8 (some 1) 2 7 (some 9) 4 (by decide) (by decide)
  exact ⟨by decide, by decide, h.1, (h.2.2.2.2.2.2 _).1, ((h.2.2.2.2.2.2 _).2.2.2.2.2 _).2.2.2.2⟩

/-! ## The preserve set of a barrier stub -/

/-- The value of `preserve` on a stub that is not frozen. -/
theorem BarrierStubC2.preserve_of_not_frozen (ASSERT : Bool) (stub : BarrierStubC2)
    (r : Register) (h : stub.frozen = false) :
    stub.preserve ASSERT r = .ok { stub with _preserve := stub._preserve.Insert r } := by
  simp [BarrierStubC2.preserve, h]

/-- The value of `dont_preserve` on a stub that is not frozen. -/
theorem BarrierStubC2.dont_preserve_of_not_frozen (ASSERT : Bool) (stub : BarrierStubC2)
    (r : Register) (h : stub.frozen = false) :
    stub.dont_preserve ASSERT r = .ok { stub with _preserve := stub._preserve.Remove r } := by
  simp [BarrierStubC2.dont_preserve, h]

/-- C8, refuted as stated: the stub built by the constructor, `preserve(3)` and emission at
position 16 is frozen and holds register 3; on it `preserve(3)` followed by
`dont_preserve(3)` does not leave a preserve set without register 3, in a debug build (the
call is rejected) and in a product build (the calls are no-ops) alike. -/
theorem stub_frozen_counterexample :
    BarrierStubC2.preserve false (BarrierStubC2.new ⟨0, 0⟩) 3
      = .ok ⟨⟨0, 0⟩, Label.new, Label.new, ⟨{3}⟩⟩ ∧
    BarrierStubC2.emit ⟨⟨0, 0⟩, Label.new, Label.new, ⟨{3}⟩⟩ 16
      = ⟨⟨0, 0⟩, ⟨some 16⟩, Label.new, ⟨{3}⟩⟩ ∧
    BarrierStubC2.frozen ⟨⟨0, 0⟩, ⟨some 16⟩, Label.new, ⟨{3}⟩⟩ = true ∧
    ∀ ASSERT : Bool, ¬ ∃ s1 s2 : BarrierStubC2,
      BarrierStubC2.preserve ASSERT ⟨⟨0, 0⟩, ⟨some 16⟩, Label.new, ⟨{3}⟩⟩ 3 = .ok s1 ∧
      BarrierStubC2.dont_preserve ASSERT s1 3 = .ok s2 ∧
      (3 : Register) ∉ s2.preserve_set.regs := by
  refine ⟨rfl, rfl, rfl, fun ASSERT => ?_⟩
  rintro ⟨s1, s2, h1, h2, h3⟩
  cases ASSERT with
  | true =>
    simp [BarrierStubC2.preserve, BarrierStubC2.frozen] at h1
  | false =>
    simp only [BarrierStubC2.preserve, BarrierStubC2.frozen, Option.isSome, if_true,
      Bool.false_eq_true, if_false, Except.ok.injEq] at h1
    subst h1
    simp only [BarrierStubC2.dont_preserve, BarrierStubC2.frozen, Option.isSome, if_true,
      Bool.false_eq_true, if_false, Except.ok.injEq] at h2
    subst h2
    exact h3 (by decide)

/-- C8, amended: a newly constructed stub is not frozen and has an empty `preserve_set()`.
On every stub that is not frozen, `preserve(r)` followed by `dont_preserve(r)` leaves the set
without `r`; `preserve(r)` twice gives the same stub as `preserve(r)` once, with `r` in the
set exactly once; `dont_preserve(r)` on a set without `r` leaves the stub unchanged. On every
frozen stub `preserve` and `dont_preserve` are rejected in a debug build and are no-ops
otherwise, so neither changes the preserve set. -/
theorem stub_preserve_set_laws (ASSERT : Bool) (stub : BarrierStubC2) (r : Register)
    (hlive : stub.frozen = false) :
    (∀ node : MachNode, (BarrierStubC2.new node).frozen = false ∧
      (BarrierStubC2.new node).preserve_set = RegMask.empty ∧
      (BarrierStubC2.new node).preserve_set.regs = ∅) ∧
    (∃ s1 s2 : BarrierStubC2, stub.preserve ASSERT r = .ok s1 ∧
      s1.dont_preserve ASSERT r = .ok s2 ∧ r ∉ s2.preserve_set.regs) ∧
    (∃ s1 : BarrierStubC2, stub.preserve ASSERT r = .ok s1 ∧ s1.preserve ASSERT r = .ok s1 ∧
      r ∈ s1.preserve_set.regs ∧ Multiset.count r s1.preserve_set.regs.val = 1) ∧
    (r ∉ stub.preserve_set.regs → stub.dont_preserve ASSERT r = .ok stub) ∧
    (∀ t : BarrierStubC2, t.frozen = true →
      t.preserve ASSERT r = (if ASSERT then .error (.assertion "stub is frozen") else .ok t) ∧
      t.dont_preserve ASSERT r
        = (if ASSERT then .error (.assertion "stub is frozen") else .ok t) ∧
      (∀ t1, t.preserve ASSERT r = .ok t1 → t1 = t) ∧
      (∀ t1, t.dont_preserve ASSERT r = .ok t1 → t1 = t)) := by
  have hp := BarrierStubC2.preserve_of_not_frozen ASSERT stub r hlive
  have hlive1 : BarrierStubC2.frozen { stub with _preserve := stub._preserve.Insert r } = false :=
    hlive
  have hmem : r ∈ (BarrierStubC2.preserve_set
      { stub with _preserve := stub._preserve.Insert r }).regs := by
    simp [BarrierStubC2.preserve_set, RegMask.Insert]
  refine ⟨fun _ => ⟨rfl, rfl, rfl⟩, ?_, ?_, ?_, ?_⟩
  · refine ⟨_, _, hp, BarrierStubC2.dont_preserve_of_not_frozen ASSERT _ r hlive1, ?_⟩
    simp [BarrierStubC2.preserve_set, RegMask.Insert, RegMask.Remove]
  · refine ⟨_, hp, ?_, hmem, Multiset.count_eq_one_of_mem (Finset.nodup _) hmem⟩
    rw [BarrierStubC2.preserve_of_not_frozen ASSERT _ r hlive1]
    simp [RegMask.Insert]
  · intro h
    rw [BarrierStubC2.dont_preserve_of_not_frozen ASSERT stub r hlive]
    cases stub with
    | mk node entry cont pres =>
      cases pres with
      | mk regs =>
        have h1 : r ∉ regs := h
        simp [RegMask.Remove, Finset.erase_eq_of_not_mem h1]
  · intro t ht
    have e1 : t.preserve ASSERT r
        = (if ASSERT then .error (.assertion "stub is frozen") else .ok t) := by
      simp [BarrierStubC2.preserve, ht]
    have e2 : t.dont_preserve ASSERT r
        = (if ASSERT then .error (.assertion "stub is frozen") else .ok t) := by
      simp [BarrierStubC2.dont_preserve, ht]
    refine ⟨e1, e2, fun t1 h => ?_, fun t1 h => ?_⟩
    · rw [e1] at h
      cases ASSERT with
      | true => cases h
      | false =>
        simp only [Bool.false_eq_true, if_false, Except.ok.injEq] at h
        exact h.symm
    · rw [e2] at h
      cases ASSERT with
      | true => cases h
      | false =>
        simp only [Bool.false_eq_true, if_false, Except.ok.injEq] at h
        exact h.symm

/-- C8, amended, at a concrete input: a new stub, which is not frozen, and register 3. -/
theorem stub_preserve_set_laws_witness :
    (BarrierStubC2.new ⟨0, 0⟩).frozen = false ∧
    (3 : Register) ∉ (BarrierStubC2.new ⟨0, 0⟩).preserve_set.regs ∧
    (BarrierStubC2.new ⟨0, 0⟩).dont_preserve true 3 = .ok (BarrierStubC2.new ⟨0, 0⟩) ∧
    ∃ s1 s2 : BarrierStubC2, (BarrierStubC2.new ⟨0, 0⟩).preserve true 3 = .ok s1 ∧
      s1.dont_preserve true 3 = .ok s2 ∧ (3 : Register) ∉ s2.preserve_set.regs :=
  have h := stub_preserve_set_laws true (BarrierStubC2.new ⟨0, 0⟩) 3 rfl
  have h0 : (3 : Register) ∉ (BarrierStubC2.new ⟨0, 0⟩).preserve_set.regs := by decide
  ⟨rfl, h0, h.2.2.2.1 h0, h.2.1⟩

/-! ## The default hooks of `BarrierSetC2` -/

/-- On the backend that overrides nothing a hook call leaves the compilation unit as it
was. -/
theorem HookCall.run_default (C : Compile) (c : HookCall) :
    HookCall.run BarrierSetC2.default C c = C := by
  cases c <;> rfl

/-- On the backend that overrides nothing a run of hook calls leaves the compilation unit as
it was. -/
theorem Compile.runHooks_default (calls : List HookCall) :
    ∀ C : Compile, Compile.runHooks BarrierSetC2.default C calls = C := by
  induction calls with
  | nil => intro C; rfl
  | cons c cs ih =>
    intro C
    show Compile.runHooks BarrierSetC2.default (HookCall.run BarrierSetC2.default C c) cs = C
    rw [HookCall.run_default, ih]

/-- C5, refuted as stated: on the backend that overrides nothing the boolean hook
`can_initialize_object` returns true, not false. -/
theorem default_can_initialize_object_counterexample :
    BarrierSetC2.default.can_initialize_object (some 0) = true ∧
    BarrierSetC2.default.can_initialize_object (some 0) ≠ false := by
  constructor
  · rfl
  · intro h
    cases h

/-- C5, amended: on the backend that overrides nothing every boolean hook other than
`can_initialize_object` returns false for every input, `can_initialize_object` returns true for
every store, `estimated_barrier_size` and `estimate_stub_size` return zero, and `ideal_node`
and `create_barrier_state` return null. -/
theorem default_hooks_conservative :
    (∀ tightly_coupled_alloc type is_clone is_clone_instance phase,
      BarrierSetC2.default.array_copy_requires_gc_barriers tightly_coupled_alloc type is_clone
        is_clone_instance phase = false) ∧
    BarrierSetC2.default.has_load_barrier_nodes = false ∧
    (∀ node, BarrierSetC2.default.is_gc_pre_barrier_node node = false) ∧
    (∀ node, BarrierSetC2.default.is_gc_barrier_node node = false) ∧
    (∀ C igvn, (BarrierSetC2.default.expand_barriers C igvn).1 = false) ∧
    (∀ phase mode visited nstack worklist,
      BarrierSetC2.default.optimize_loops phase mode visited nstack worklist = false) ∧
    (∀ mode, BarrierSetC2.default.strip_mined_loops_expanded mode = false) ∧
    (∀ mode, BarrierSetC2.default.is_gc_specific_loop_opts_pass mode = false) ∧
    (∀ compile n opcode dead_nodes,
      BarrierSetC2.default.final_graph_reshaping compile n opcode dead_nodes = false) ∧
    (∀ conn_graph gvn delayed_worklist n opcode,
      BarrierSetC2.default.escape_add_to_con_graph conn_graph gvn delayed_worklist n opcode
        = false) ∧
    (∀ conn_graph gvn n opcode,
      BarrierSetC2.default.escape_add_final_edges conn_graph gvn n opcode = false) ∧
    (∀ n, BarrierSetC2.default.escape_has_out_with_unsafe_object n = false) ∧
    (∀ matcher n opcode,
      BarrierSetC2.default.matcher_find_shared_post_visit matcher n opcode = false) ∧
    (∀ x xop, BarrierSetC2.default.matcher_is_store_load_barrier x xop = false) ∧
    (∀ store, BarrierSetC2.default.can_initialize_object store = true) ∧
    (∀ node, BarrierSetC2.default.estimated_barrier_size node = 0) ∧
    BarrierSetC2.default.estimate_stub_size = 0 ∧
    (∀ phase n can_reshape, BarrierSetC2.default.ideal_node phase n can_reshape = none) ∧
    (∀ comp_arena, BarrierSetC2.default.create_barrier_state comp_arena = none) := by
  refine ⟨?_, rfl, ?_, ?_, ?_, ?_, ?_, ?_, ?_, ?_, ?_, ?_, ?_, ?_, ?_, ?_, rfl, ?_, ?_⟩ <;>
    intros <;> rfl

/-- C6: on the backend that overrides nothing `create_barrier_state` returns null and
`expand_barriers` reports no change and leaves the compilation unit as it was; so a call of
`expand_barriers` that follows one reporting no change reports no change too, and after any
run of hook calls the state is still null and holds no barrier marker. -/
theorem default_expand_barriers_fixpoint :
    (∀ comp_arena, BarrierSetC2.default.create_barrier_state comp_arena = none) ∧
    (∀ C igvn, BarrierSetC2.default.expand_barriers C igvn = (false, C)) ∧
    (∀ C igvn igvn1, (BarrierSetC2.default.expand_barriers C igvn).1 = false →
      (BarrierSetC2.default.expand_barriers
        (BarrierSetC2.default.expand_barriers C igvn).2 igvn1).1 = false) ∧
    (∀ comp_arena calls,
      (Compile.runHooks BarrierSetC2.default (Compile.new BarrierSetC2.default comp_arena)
        calls).barrier_set_state = none ∧
      (Compile.runHooks BarrierSetC2.default (Compile.new BarrierSetC2.default comp_arena)
        calls).markers = []) := by
  refine ⟨fun _ => rfl, fun _ _ => rfl, fun _ _ _ _ => rfl, fun comp_arena calls => ?_⟩
  rw [Compile.runHooks_default]
  exact ⟨rfl, rfl⟩

/-- C6, at a concrete input: `expand_barriers` twice on a fresh compilation unit, with a
marker registration in between. -/
theorem default_expand_barriers_fixpoint_witness :
    (BarrierSetC2.default.expand_barriers (Compile.new BarrierSetC2.default none) 1).1 = false ∧
    (BarrierSetC2.default.expand_barriers
      (BarrierSetC2.default.expand_barriers (Compile.new BarrierSetC2.default none) 1).2 2).1
        = false ∧
    (Compile.runHooks BarrierSetC2.default (Compile.new BarrierSetC2.default none)
      [.expand_barriers 1, .register_potential_barrier_node (some 4),
       .expand_barriers 2]).markers = [] :=
  have h0 : (BarrierSetC2.default.expand_barriers (Compile.new BarrierSetC2.default none) 1).1
      = false := rfl
  ⟨h0, default_expand_barriers_fixpoint.2.2.1 _ 1 2 h0,
    (default_expand_barriers_fixpoint.2.2.2 none _).2⟩

/-- C9: on the backend that overrides nothing `is_gc_barrier_node`, `is_gc_pre_barrier_node`
and `has_load_barrier_nodes` are false for every input, and `step_over_gc_barrier` returns its
argument, so applying it any number of times gives the original node. -/
theorem default_no_gc_barrier_nodes :
    (∀ node, BarrierSetC2.default.is_gc_barrier_node node = false) ∧
    (∀ node, BarrierSetC2.default.is_gc_pre_barrier_node node = false) ∧
    BarrierSetC2.default.has_load_barrier_nodes = false ∧
    (∀ c, BarrierSetC2.default.step_over_gc_barrier c = c) ∧
    (∀ k c, BarrierSetC2.default.step_over_gc_barrier_iter k c = c) := by
  refine ⟨fun _ => rfl, fun _ => rfl, rfl, fun _ => rfl, fun k => ?_⟩
  induction k with
  | zero => intro c; rfl
  | succ k ih => intro c; exact ih c

/-! ## The `C2_*` decorators -/

/-- A shift of a single bit that stays within the word is the single bit that much higher. -/
theorem shl64_two_pow (k i : Nat) (h : k + i < decoratorBits) :
    shl64 (2 ^ k) i = 2 ^ (k + i) := by
  unfold shl64
  rw [Nat.shiftLeft_eq, ← Nat.pow_add]
  exact Nat.mod_eq_of_lt (Nat.pow_lt_pow_right (by decide) h)

/-- The hypothesis that `DECORATOR_LAST << 11` does not overflow, as a bound on the bit. -/
theorem bit_bound_of_no_overflow (k : Nat) (h : (2 ^ k) <<< 11 < 2 ^ decoratorBits) :
    k + 11 < decoratorBits := by
  rw [Nat.shiftLeft_eq, ← Nat.pow_add] at h
  exact (Nat.pow_lt_pow_iff_right (by decide)).1 h

/-- The eleven constants are the bits `k + 1` to `k + 11` when `DECORATOR_LAST` is bit `k`. -/
theorem c2Flags_eq (k : Nat) (h : (2 ^ k) <<< 11 < 2 ^ decoratorBits) :
    c2Flags (2 ^ k) = (List.range 11).map fun i => 2 ^ (k + (i + 1)) := by
  have hk := bit_bound_of_no_overflow k h
  have e : ∀ i, i ≤ 11 → shl64 (2 ^ k) i = 2 ^ (k + i) :=
    fun i hi => shl64_two_pow k i (by omega)
  simp only [c2Flags, C2_MISMATCHED, C2_UNALIGNED, C2_WEAK_CMPXCHG, C2_CONTROL_DEPENDENT_LOAD,
    C2_UNKNOWN_CONTROL_LOAD, C2_UNSAFE_ACCESS, C2_WRITE_ACCESS, C2_READ_ACCESS,
    C2_TIGHTLY_COUPLED_ALLOC, C2_ARRAY_COPY, C2_IMMUTABLE_MEMORY]
  rw [e 1 (by decide), e 2 (by decide), e 3 (by decide), e 4 (by decide), e 5 (by decide),
    e 6 (by decide), e 7 (by decide), e 8 (by decide), e 9 (by decide), e 10 (by decide),
    e 11 (by decide)]
  rfl

/-- Membership in the list of the eleven constants. -/
theorem mem_c2Flags (k : Nat) (h : (2 ^ k) <<< 11 < 2 ^ decoratorBits) (f : DecoratorSet) :
    f ∈ c2Flags (2 ^ k) ↔ ∃ i, i < 11 ∧ f = 2 ^ (k + (i + 1)) := by
  rw [c2Flags_eq k h, List.mem_map]
  constructor
  · rintro ⟨i, hi, rfl⟩
    exact ⟨i, List.mem_range.1 hi, rfl⟩
  · rintro ⟨i, hi, rfl⟩
    exact ⟨i, List.mem_range.2 hi, rfl⟩

/-- A bit of a descriptor built with `|` is a bit of the base or of one of the flags. -/
theorem testBit_withFlags (S : List DecoratorSet) :
    ∀ (base : DecoratorSet) (j : Nat),
      (withFlags base S).testBit j = (base.testBit j || S.any fun f => f.testBit j) := by
  induction S with
  | nil => intro base j; simp [withFlags]
  | cons g S ih =>
    intro base j
    show (withFlags (base ||| g) S).testBit j = _
    rw [ih (base ||| g) j, Nat.testBit_or, List.any_cons, Bool.or_assoc]

/-- The test of a single-bit flag reads that bit. -/
theorem testFlag_two_pow (d j : Nat) : testFlag d (2 ^ j) = d.testBit j := by
  unfold testFlag
  rw [Nat.and_two_pow]
  cases d.testBit j with
  | false => simp
  | true =>
    have hpos : 0 < 2 ^ j := Nat.pos_pow_of_pos j (by decide)
    simp [Nat.pos_iff_ne_zero.1 hpos]

/-- A descriptor built with `|` from words below `2 ^ w` is below `2 ^ w`. -/
theorem withFlags_lt (w : Nat) (S : List DecoratorSet) :
    ∀ base : DecoratorSet, base < 2 ^ w → (∀ f ∈ S, f < 2 ^ w) → withFlags base S < 2 ^ w := by
  induction S with
  | nil => intro base hb _; exact hb
  | cons g S ih =>
    intro base hb hS
    exact ih (base ||| g) (Nat.or_lt_two_pow hb (hS g (List.mem_cons_self _ _)))
      (fun f hf => hS f (List.mem_cons_of_mem _ hf))

/-- C4: when `DECORATOR_LAST` is the single bit `k` and `DECORATOR_LAST << 11` does not
overflow the 64-bit `DecoratorSet`, the eleven `C2_*` constants are pairwise distinct single
bits, each strictly above `DECORATOR_LAST` and within the word. So on the descriptor built by
combining with `|` any flags `S` among them onto a descriptor `base` of the base vocabulary,
the `&` test of a `C2_*` constant `f` is non-zero if and only if `f` is in `S`; in particular
`C2_READ_ACCESS` and `C2_WRITE_ACCESS` both test as set on the descriptor that combines
both. -/
theorem c2_flags_independent_bits (DECORATOR_LAST : DecoratorSet) (k : Nat)
    (hbit : DECORATOR_LAST = 2 ^ k) (hno : DECORATOR_LAST <<< 11 < 2 ^ decoratorBits) :
    (c2Flags DECORATOR_LAST).length = 11 ∧
    (c2Flags DECORATOR_LAST).Nodup ∧
    (∀ f ∈ c2Flags DECORATOR_LAST,
      (∃ j, f = 2 ^ j) ∧ DECORATOR_LAST < f ∧ f < 2 ^ decoratorBits) ∧
    (∀ (base : DecoratorSet) (S : List DecoratorSet),
      isBaseDescriptor DECORATOR_LAST base → (∀ f ∈ S, f ∈ c2Flags DECORATOR_LAST) →
      withFlags base S < 2 ^ decoratorBits ∧
      ∀ f ∈ c2Flags DECORATOR_LAST, (testFlag (withFlags base S) f = true ↔ f ∈ S)) ∧
    (∀ base : DecoratorSet, isBaseDescriptor DECORATOR_LAST base →
      testFlag (withFlags base [C2_READ_ACCESS DECORATOR_LAST, C2_WRITE_ACCESS DECORATOR_LAST])
        (C2_READ_ACCESS DECORATOR_LAST) = true ∧
      testFlag (withFlags base [C2_READ_ACCESS DECORATOR_LAST, C2_WRITE_ACCESS DECORATOR_LAST])
        (C2_WRITE_ACCESS DECORATOR_LAST) = true) := by
  subst hbit
  have hk := bit_bound_of_no_overflow k hno
  have hmem := mem_c2Flags k hno
  have hflag : ∀ f ∈ c2Flags (2 ^ k),
      (∃ j, f = 2 ^ j) ∧ 2 ^ k < f ∧ f < 2 ^ decoratorBits := by
    intro f hf
    obtain ⟨i, hi, rfl⟩ := (hmem f).1 hf
    exact ⟨⟨_, rfl⟩, Nat.pow_lt_pow_right (by decide) (by omega),
      Nat.pow_lt_pow_right (by decide) (by omega)⟩
  have htest : ∀ (base : DecoratorSet) (S : List DecoratorSet),
      isBaseDescriptor (2 ^ k) base → (∀ f ∈ S, f ∈ c2Flags (2 ^ k)) →
      withFlags base S < 2 ^ decoratorBits ∧
      ∀ f ∈ c2Flags (2 ^ k), (testFlag (withFlags base S) f = true ↔ f ∈ S) := by
    intro base S hbase hS
    have hb1 : base < 2 ^ (k + 1) := by
      have h2 : base < 2 * 2 ^ k := hbase
      rw [Nat.pow_succ, Nat.mul_comm]
      exact h2
    have hb64 : base < 2 ^ decoratorBits :=
      Nat.lt_trans hb1 (Nat.pow_lt_pow_right (by decide) (by omega))
    refine ⟨withFlags_lt _ S base hb64 (fun f hf => (hflag f (hS f hf)).2.2), ?_⟩
    intro f hf
    obtain ⟨i, hi, rfl⟩ := (hmem f).1 hf
    have hbase0 : base.testBit (k + (i + 1)) = false :=
      Nat.testBit_lt_two_pow
        (Nat.lt_of_lt_of_le hb1 (Nat.pow_le_pow_right (by decide) (by omega)))
    rw [testFlag_two_pow, testBit_withFlags, hbase0, Bool.false_or, List.any_eq_true]
    constructor
    · rintro ⟨g, hg, hbitg⟩
      obtain ⟨i1, _, rfl⟩ := (hmem g).1 (hS g hg)
      rw [Nat.testBit_two_pow] at hbitg
      have e : k + (i1 + 1) = k + (i + 1) := of_decide_eq_true hbitg
      rw [← e]
      exact hg
    · intro hin
      exact ⟨_, hin, Nat.testBit_two_pow_self⟩
  refine ⟨rfl, ?_, hflag, htest, ?_⟩
  · rw [c2Flags_eq k hno]
    refine List.Nodup.map ?_ (List.nodup_range 11)
    intro a b hab
    have e : k + (a + 1) = k + (b + 1) := Nat.pow_right_injective (Nat.le_refl 2) hab
    omega
  · intro base hbase
    have hS : ∀ f ∈ [C2_READ_ACCESS (2 ^ k), C2_WRITE_ACCESS (2 ^ k)], f ∈ c2Flags (2 ^ k) := by
      intro f hf
      simp only [List.mem_cons, List.mem_singleton, List.not_mem_nil, or_false] at hf
      rcases hf with rfl | rfl <;> simp [c2Flags]
    have h := (htest base _ hbase hS).2
    exact ⟨(h _ (by simp [c2Flags])).2 (by simp), (h _ (by simp [c2Flags])).2 (by simp)⟩

/-- C4, at a concrete input: `DECORATOR_LAST` bit 30, base descriptor 5, flags read and
write. -/
theorem c2_flags_independent_bits_witness :
    (1073741824 : DecoratorSet) = 2 ^ 30 ∧
    (1073741824 : DecoratorSet) <<< 11 < 2 ^ decoratorBits ∧
    testFlag (withFlags 5 [C2_READ_ACCESS 1073741824, C2_WRITE_ACCESS 1073741824])
      (C2_READ_ACCESS 1073741824) = true ∧
    testFlag (withFlags 5 [C2_READ_ACCESS 1073741824, C2_WRITE_ACCESS 1073741824])
      (C2_WRITE_ACCESS 1073741824) = true :=
  have hbit : (1073741824 : DecoratorSet) = 2 ^ 30 := by decide
  have hno : (1073741824 : DecoratorSet) <<< 11 < 2 ^ decoratorBits := by decide
  have hbase : isBaseDescriptor 1073741824 5 := by
    show 5 < 2 * 1073741824
    decide
  ⟨hbit, hno, (c2_flags_independent_bits 1073741824 30 hbit hno).2.2.2.2 5 hbase⟩

end BarrierSetC2Model
